/-
Verification of the starscape generator (src/starscape.py) against its
natural-language specification.

The script is a Blender add-on body: `generate_starscape(props)` samples star
positions on the unit sphere, builds a star-template triangle, assembles a
shader node graph (with three node groups), and installs constraints and
drivers.  We embed the parts of the program the claims are about:

* the point-count arithmetic (`round(1000 * star_density)`, Python's
  round-half-to-even) over ℚ;
* the point-generation stage, parametric in the pseudo-random generator
  (Python's `random` module is an external collaborator: it is modelled as an
  abstract seedable stream of rationals in [0,1));
* the real-valued coordinate conversion `spherical_to_cartesian_coordinates`;
* the pure functions computed by the three shader node groups
  ("Random Intensity", "Random Splitter"), from the wiring in the source;
* the variadic chain-wiring helper `connect_nodes`;
* the star-template triangle constants;
* a scene-state model of the name-keyed datablock registries (meshes,
  objects, materials, node groups), camera, constraints and drivers, with
  `generate_starscape` translated statement by statement.
-/
import Mathlib

namespace Starscape

/-! ### Python rounding and the point count -/

/-- Floor of a rational, computed on the numerator and denominator so that it
evaluates by kernel reduction. -/
def floorQ (q : ℚ) : ℤ :=
  Int.fdiv q.num q.den

/-- Ceiling of a rational. -/
def ceilQ (q : ℚ) : ℤ :=
  -floorQ (-q)

/-- Python's built-in `round` on a rational: round half to even. -/
def pyRound (q : ℚ) : ℤ :=
  let f := floorQ q
  let r := q - (f : ℚ)
  if r < 1/2 then f
  else if 1/2 < r then f + 1
  else if f % 2 = 0 then f else f + 1

/-- Number of star positions generated: `N = 1000 * star_density`,
`N = N / 2` under hemisphere mode, then `range(round(N))`
(src/starscape.py lines 107-110). -/
def numStars (star_density : ℚ) (hemisphere : Bool) : ℕ :=
  (pyRound (if hemisphere then 1000 * star_density / 2 else 1000 * star_density)).toNat

/-! ### The point-generation stage

Python's `random` module is external to the repository; it is modelled as an
abstract pseudo-random generator: a state type, a `seed` operation resetting
the state from an integer, and a `next` operation drawing one rational in
[0,1) (`random.random()`), so that all draws come from the single shared
sequential stream, exactly as the source uses the module-level generator. -/

structure PRNG (σ : Type) where
  seed : ℤ → σ
  next : σ → ℚ × σ

/-- `random_spherical_coordinates` (src/starscape.py lines 24-27):
`phi = random.random() * 2 * pi`, `theta = asin(2 * random.random() - 1)`. -/
noncomputable def random_spherical_coordinates {σ : Type} (R : PRNG σ) (g : σ) :
    (ℝ × ℝ) × σ :=
  let p1 := R.next g
  let p2 := R.next p1.2
  ((((p1.1 : ℝ)) * 2 * Real.pi, Real.arcsin (2 * ((p2.1 : ℝ)) - 1)), p2.2)

/-- `spherical_to_cartesian_coordinates` (src/starscape.py lines 29-33). -/
noncomputable def spherical_to_cartesian_coordinates (radius phi theta : ℝ) :
    ℝ × ℝ × ℝ :=
  (radius * Real.cos phi * Real.cos theta,
   radius * Real.sin phi * Real.cos theta,
   radius * Real.sin theta)

/-- The vertex loop of `generate_starscape` (src/starscape.py lines 110-116):
draw spherical coordinates, convert with radius 1, fold `z` to `abs z` in
hemisphere mode, append. -/
noncomputable def starVerticesLoop {σ : Type} (R : PRNG σ) (hemisphere : Bool) :
    ℕ → σ → List (ℝ × ℝ × ℝ) × σ
  | 0, g => ([], g)
  | Nat.succ n, g =>
    let pc := random_spherical_coordinates R g
    let v := spherical_to_cartesian_coordinates 1 pc.1.1 pc.1.2
    let v' : ℝ × ℝ × ℝ := (v.1, v.2.1, if hemisphere then |v.2.2| else v.2.2)
    let rest := starVerticesLoop R hemisphere n pc.2
    (v' :: rest.1, rest.2)

/-- The point-generation stage of `generate_starscape`
(src/starscape.py lines 102-116): `random.seed(props.random_seed)` resets the
module-level generator, discarding whatever state `g0` it had, then the
vertex loop runs `numStars` times. -/
noncomputable def pointStage {σ : Type} (R : PRNG σ) (_g0 : σ) (s : ℤ)
    (star_density : ℚ) (hemisphere : Bool) : List (ℝ × ℝ × ℝ) × σ :=
  starVerticesLoop R hemisphere (numStars star_density hemisphere) (R.seed s)

/-- A concrete linear-congruential instance of the generator interface, used
only to evaluate the stage on concrete inputs. -/
def lcgRNG : PRNG ℕ where
  seed := fun s => s.natAbs % 2147483648
  next := fun g => (((g % 1000 : ℕ) : ℚ) / 1000, (g * 1103515245 + 12345) % 2147483648)

/-! ### Shader math-node semantics and the node groups

The three node groups are fixed chains of Blender `ShaderNodeMath` nodes; the
functions below are read off the wiring calls in the source.  Blender's math
node semantics for the operations used: `MULTIPLY`/`DIVIDE`/`ADD` are the
field operations (division by zero yields 0, as in Lean), `LOGARITHM x base`
is `log x / log base`, `POWER` is real exponentiation, `MODULO` is the
C `fmod` (remainder with the sign of the dividend, truncated division). -/

/-- Truncation toward zero of a rational, as C `trunc`. -/
def truncQ (q : ℚ) : ℤ :=
  if 0 ≤ q then floorQ q else ceilQ q

/-- Blender math-node `MODULO`: C `fmod x y = x - y * trunc (x / y)`. -/
def fmodQ (x y : ℚ) : ℚ :=
  x - y * (truncQ (x / y) : ℚ)

/-- Blender math-node `LOGARITHM x base = log x / log base`. -/
noncomputable def mathLogarithm (x base : ℝ) : ℝ :=
  Real.log x / Real.log base

/-- The "Random Intensity" node group (src/starscape.py lines 163-183):
input `Random` → `MULTIPLY _ 9100` → `DIVIDE _ 3.56` → `LOGARITHM _ e`
→ `DIVIDE _ (-1.21)` → second input of `POWER 2.512 _` → output `Intensity`. -/
noncomputable def randomIntensityGroup (r : ℝ) : ℝ :=
  let mag_input := r * 9100
  let v := mag_input / 3.56
  let lg := mathLogarithm v (Real.exp 1)
  let mag := lg / (-1.21)
  (2.512 : ℝ) ^ mag

/-- The "Random Splitter" node group (src/starscape.py lines 188-200):
output `Random 1` is the input wired straight through; output `Random 2` is
input → `MULTIPLY _ 1000` → `MODULO _ 1`. -/
def randomSplitterGroup (r : ℚ) : ℚ × ℚ :=
  (r, fmodQ (r * 1000) 1)

/-- The "Random Star Color" temperature chain (src/starscape.py lines
219-233): input → `MULTIPLY _ 17000` → `ADD _ 3000` → blackbody temperature
(the blackbody node itself is a host capability). -/
def starColorTemperature (r : ℚ) : ℚ :=
  r * 17000 + 3000

/-! ### The variadic chain-wiring helper `connect_nodes` -/

/-- The links made by the loop in `connect_nodes` (src/starscape.py lines
63-70): link `i` goes from `args[3*i]` output `args[3*i+1]` to input
`args[3*i+2]` of `args[3*(i+1)]`; successive links share the node between
them.  A link is recorded as `(node_a, output, input, node_b)`. -/
def chainLinks {α : Type} : List α → List (α × α × α × α)
  | a :: out :: inp :: rest =>
    match rest with
    | b :: _ => (a, out, inp, b) :: chainLinks rest
    | [] => []
  | _ => []

/-- `connect_nodes` (src/starscape.py lines 59-70): raise when
`len(args) < 4 or (len(args) - 4) % 3 != 0`, before any link is made;
otherwise make the chain of links.  The `tree` parameter only receives the
links, so the embedding returns them. -/
def connect_nodes {α : Type} (args : List α) : Except String (List (α × α × α × α)) :=
  if args.length < 4 ∨ (args.length - 4) % 3 ≠ 0 then
    Except.error "Invalid number of arguments!"
  else
    Except.ok (chainLinks args)

/-! ### The star template triangle -/

/-- `s = 0.0002` (src/starscape.py line 126). -/
noncomputable def tmpl_s : ℝ := 0.0002

/-- `q = s * sqrt(3)` (src/starscape.py line 127). -/
noncomputable def tmpl_q : ℝ := tmpl_s * Real.sqrt 3

/-- First template vertex `(0, 0, 2s)` (src/starscape.py line 128). -/
noncomputable def templateV0 : ℝ × ℝ × ℝ := (0, 0, 2 * tmpl_s)

/-- Second template vertex `(-q, 0, -s)` (src/starscape.py line 129). -/
noncomputable def templateV1 : ℝ × ℝ × ℝ := (-tmpl_q, 0, -tmpl_s)

/-- Third template vertex `(q, 0, -s)` (src/starscape.py line 130). -/
noncomputable def templateV2 : ℝ × ℝ × ℝ := (tmpl_q, 0, -tmpl_s)

/-- The template vertex list (src/starscape.py lines 125-130), the same on
every generation. -/
noncomputable def templateVertices : List (ℝ × ℝ × ℝ) :=
  [templateV0, templateV1, templateV2]

/-- The template edges `[(0,1), (0,2), (1,2)]` (src/starscape.py line 132). -/
def templateEdges : List (ℕ × ℕ) :=
  [(0, 1), (0, 2), (1, 2)]

/-- The template faces `[(0,1,2)]` (src/starscape.py line 132). -/
def templateFaces : List (ℕ × ℕ × ℕ) :=
  [(0, 1, 2)]

/-- Squared Euclidean distance between two points of ℝ³. -/
def distSq (a b : ℝ × ℝ × ℝ) : ℝ :=
  (a.1 - b.1) ^ 2 + (a.2.1 - b.2.1) ^ 2 + (a.2.2 - b.2.2) ^ 2

/-! ### Scene-state model

The host (Blender) keeps name-keyed registries of datablocks.  We model the
fields of the scene the program reads or writes.  Mesh contents are tracked
as vertex/edge/face counts (their values are the real-valued stage above);
the material's internal node graph is rebuilt from scratch on every call
(`nodes.clear()` at line 146) and is captured by the pure group functions,
so at the scene level the material is tracked by name. -/

structure MeshData where
  nverts : ℕ
  nedges : ℕ
  nfaces : ℕ
deriving DecidableEq

structure Constraint where
  ctype : String
  target : Option String
deriving DecidableEq

structure Obj where
  name : String
  data_ : String
  constraints : List Constraint
  active_material : Option String
  parent : Option String
  instance_type : String
  use_instance_vertices_rotation : Bool
  show_instancer_for_render : Bool
  hide_viewport : Bool
  scale_driver : Option String
deriving DecidableEq

structure Camera where
  name : String
  cam_type : String
deriving DecidableEq

structure SceneState where
  meshes : List (String × MeshData)
  objects : List Obj
  materials : List String
  node_groups : List String
  camera : Option Camera
  world_use_nodes : Bool
  world_color : ℚ × ℚ × ℚ
deriving DecidableEq

/-- The parameter bundle consumed by `generate_starscape`. -/
structure Props where
  random_seed : ℤ
  star_density : ℚ
  hemisphere : Bool
  star_intensity : ℚ
  camera_lock : Bool
  clear_world_bg : Bool
deriving DecidableEq

/-- `bpy.data.objects[name]` lookup: the (first) object with the given name. -/
def lookupObj : List Obj → String → Option Obj
  | [], _ => none
  | o :: os, n => if o.name = n then some o else lookupObj os n

/-- Mutation through a reference obtained by name lookup: apply `f` to the
(first) object with the given name. -/
def modifyFirstNamed (n : String) (f : Obj → Obj) : List Obj → List Obj
  | [] => []
  | o :: os => if o.name = n then f o :: os else o :: modifyFirstNamed n f os

/-- `bpy.data.meshes[name]` lookup. -/
def lookupMesh : List (String × MeshData) → String → Option MeshData
  | [], _ => none
  | p :: ps, n => if p.1 = n then some p.2 else lookupMesh ps n

/-- Overwrite the contents of the (first) mesh with the given name. -/
def setMesh (n : String) (d : MeshData) : List (String × MeshData) → List (String × MeshData)
  | [] => []
  | p :: ps => if p.1 = n then (p.1, d) :: ps else p :: setMesh n d ps

/-- Three-digit numeric suffix, as in Blender's "Name.001". -/
def natSuffix (k : ℕ) : String :=
  (if k < 10 then "00" else if k < 100 then "0" else "") ++ toString k

/-- Blender's datablock-name uniquification: `.new(base)` keeps `base` when
free, otherwise appends the first free ".001"-style suffix. -/
def uniquify (existing : List String) (base : String) : String :=
  if existing.contains base then
    match (List.range (existing.length + 1)).find?
        (fun j => !(existing.contains (base ++ "." ++ natSuffix (j + 1)))) with
    | some j => base ++ "." ++ natSuffix (j + 1)
    | none => base
  else base

/-- A freshly created object datablock (`bpy.data.objects.new(name, mesh)`)
linked into the scene collection. -/
def newObj (name data_ : String) : Obj :=
  { name := name, data_ := data_, constraints := [], active_material := none,
    parent := none, instance_type := "NONE",
    use_instance_vertices_rotation := false, show_instancer_for_render := true,
    hide_viewport := false, scale_driver := none }

/-- `create_or_reuse_mesh_object` (src/starscape.py lines 9-22): reuse the
mesh named `name + "_mesh"` (clearing its geometry) or create it; reuse the
object named `name` or create it with that mesh and link it. -/
def create_or_reuse_mesh_object (st : SceneState) (name : String) : SceneState :=
  let meshName := name ++ "_mesh"
  let st1 :=
    if (lookupMesh st.meshes meshName).isSome then
      { st with meshes := setMesh meshName ⟨0, 0, 0⟩ st.meshes }
    else
      { st with meshes := st.meshes ++ [(meshName, ⟨0, 0, 0⟩)] }
  if (lookupObj st1.objects name).isSome then st1
  else { st1 with objects := st1.objects ++ [newObj name meshName] }

/-- `obj.data.from_pydata(...)`: overwrite the contents of the mesh the named
object points to. -/
def from_pydata (st : SceneState) (objName : String) (d : MeshData) : SceneState :=
  match lookupObj st.objects objName with
  | none => st
  | some o => { st with meshes := setMesh o.data_ d st.meshes }

/-- The material lookup-or-create of src/starscape.py lines 137-140. -/
def ensureMaterial (st : SceneState) (n : String) : SceneState :=
  if st.materials.contains n then st
  else { st with materials := st.materials ++ [n] }

/-- `bpy.data.node_groups.new(base, "ShaderNodeTree")`: always creates a new
datablock, under a uniquified name. -/
def newNodeGroup (st : SceneState) (base : String) : SceneState :=
  { st with node_groups := st.node_groups ++ [uniquify st.node_groups base] }

/-- Apply an update to the (first) object with the given name. -/
def objMod (st : SceneState) (n : String) (f : Obj → Obj) : SceneState :=
  { st with objects := modifyFirstNamed n f st.objects }

/-- The world-background clearing at the end of `generate_starscape`
(src/starscape.py lines 326-330). -/
def clearWorldBackground (props : Props) (st : SceneState) : SceneState :=
  if props.clear_world_bg then
    { st with world_use_nodes := false, world_color := (0, 0, 0) }
  else st

/-- The body of `generate_starscape` after the camera guard
(src/starscape.py lines 102-332), translated statement by statement.  The
Python code mutates `stars_obj` and `template_obj` through the references
returned by the name lookups in `create_or_reuse_mesh_object`; here each
such mutation is an update of the object with that name.  The material's
internal nodes and links are the pure group functions above and are not
repeated in the scene state. -/
def generateBody (props : Props) (camera : Camera) (st : SceneState) : SceneState :=
  let nstars := numStars props.star_density props.hemisphere
  let st := create_or_reuse_mesh_object st "Starscape"
  let st := from_pydata st "Starscape" ⟨nstars, 0, 0⟩
  let st := create_or_reuse_mesh_object st "Star_Template"
  let st := from_pydata st "Star_Template" ⟨3, 3, 1⟩
  let st := ensureMaterial st "Star Shader"
  let st := newNodeGroup st "Random Intensity"
  let st := newNodeGroup st "Random Splitter"
  let st := newNodeGroup st "Random Star Color"
  let st := objMod st "Star_Template" (fun o => { o with active_material := some "Star Shader" })
  let st := objMod st "Starscape" (fun o =>
    { o with constraints :=
        if props.camera_lock then [⟨"COPY_LOCATION", some camera.name⟩] else [] })
  let st := objMod st "Starscape" (fun o => { o with scale_driver := some "0.9 * s" })
  let st := objMod st "Star_Template" (fun o =>
    { o with scale_driver := some "50 / f * 2202.907 / max(x, y) / p * 100" })
  let st := objMod st "Star_Template" (fun o => { o with parent := some "Starscape" })
  let st := objMod st "Starscape" (fun o =>
    { o with instance_type := "VERTS", use_instance_vertices_rotation := true,
             show_instancer_for_render := false })
  let st := objMod st "Star_Template" (fun o => { o with hide_viewport := true })
  clearWorldBackground props st

/-- `generate_starscape` (src/starscape.py lines 96-332): fetch the scene
camera; abort with `False` when there is none or it is not perspective
(lines 98-100, before any mutation); otherwise run the body and return
`True`. -/
def generate_starscape (props : Props) (st : SceneState) : Bool × SceneState :=
  match st.camera with
  | none => (false, st)
  | some camera =>
    if camera.cam_type ≠ "PERSP" then (false, st)
    else (true, generateBody props camera st)

/-- Number of objects in the registry carrying a given name. -/
def countName (l : List Obj) (n : String) : ℕ :=
  l.countP (fun o => o.name == n)

/-- Number of occurrences of a name in a string registry. -/
def countStr (l : List String) (n : String) : ℕ :=
  l.countP (fun m => m == n)

/-- A scene with a perspective camera and empty registries, used to evaluate
the model on concrete inputs. -/
def demoCamera : Camera :=
  ⟨"Camera", "PERSP"⟩

def demoScene : SceneState :=
  ⟨[], [], [], [], some demoCamera, true, (1, 1, 1)⟩

def demoProps : Props :=
  ⟨42, 0, false, 1, true, false⟩

/-- The demo scene with an orthographic camera instead. -/
def orthoScene : SceneState :=
  { demoScene with camera := some ⟨"Camera", "ORTHO"⟩ }

/-! ## Lemmas about rounding -/

theorem floorQ_eq (q : ℚ) : floorQ q = ⌊q⌋ := by
  rw [floorQ, Int.fdiv_eq_ediv _ (by positivity), Rat.floor_def]

theorem ceilQ_eq (q : ℚ) : ceilQ q = ⌈q⌉ := by
  rw [ceilQ, floorQ_eq, Int.floor_neg, neg_neg]

/-! ## Lemmas about the point-generation stage -/

theorem starVerticesLoop_length {σ : Type} (R : PRNG σ) (hemisphere : Bool) :
    ∀ (n : ℕ) (g : σ), ((starVerticesLoop R hemisphere n g).1).length = n := by
  intro n
  induction n with
  | zero => intro g; rfl
  | succ n ih => intro g; simp [starVerticesLoop, ih]

theorem pointStage_length {σ : Type} (R : PRNG σ) (g : σ) (s : ℤ) (d : ℚ)
    (hemisphere : Bool) :
    ((pointStage R g s d hemisphere).1).length = numStars d hemisphere := by
  unfold pointStage
  exact starVerticesLoop_length R hemisphere _ _

theorem sphere_coord_helper (phi theta : ℝ) (hemisphere : Bool) :
    (spherical_to_cartesian_coordinates 1 phi theta).1 ^ 2
      + (spherical_to_cartesian_coordinates 1 phi theta).2.1 ^ 2
      + (if hemisphere then |(spherical_to_cartesian_coordinates 1 phi theta).2.2|
          else (spherical_to_cartesian_coordinates 1 phi theta).2.2) ^ 2 = 1 := by
  have h1 := Real.sin_sq_add_cos_sq phi
  have h2 := Real.sin_sq_add_cos_sq theta
  unfold spherical_to_cartesian_coordinates
  cases hemisphere with
  | false =>
    simp only [Bool.false_eq_true, if_false, one_mul]
    linear_combination Real.cos theta ^ 2 * h1 + h2
  | true =>
    simp only [if_pos, one_mul, sq_abs]
    linear_combination Real.cos theta ^ 2 * h1 + h2

theorem starVerticesLoop_on_sphere {σ : Type} (R : PRNG σ) (hemisphere : Bool) :
    ∀ (n : ℕ) (g : σ),
      List.Forall (fun v : ℝ × ℝ × ℝ => v.1 ^ 2 + v.2.1 ^ 2 + v.2.2 ^ 2 = 1)
        ((starVerticesLoop R hemisphere n g).1) := by
  intro n
  induction n with
  | zero => intro g; simp [starVerticesLoop]
  | succ n ih =>
    intro g
    simp only [starVerticesLoop, List.forall_cons]
    exact ⟨sphere_coord_helper _ _ hemisphere, ih _⟩

/-! ## Claims about the point-generation stage -/

/-- C4: point generation is deterministic: for every seed `s`, density and
hemisphere flag, two runs of the point-generation stage — whatever states
`g1`, `g2` the shared pseudo-random stream was left in beforehand — produce
identical vertex sequences, because `random.seed(s)` resets the single
stream and all draws are sequential from it. -/
theorem pointStage_deterministic {σ : Type} (R : PRNG σ) (g1 g2 : σ) (s : ℤ)
    (d : ℚ) (hemisphere : Bool) :
    (pointStage R g1 s d hemisphere).1 = (pointStage R g2 s d hemisphere).1 :=
  rfl

/-- C9: every generated star position lies on the unit sphere: each vertex of
the point stage satisfies `x² + y² + z² = 1` exactly in real arithmetic,
with `z` replaced by `|z|` under hemisphere mode. -/
theorem pointStage_on_unit_sphere {σ : Type} (R : PRNG σ) (g : σ) (s : ℤ)
    (d : ℚ) (hemisphere : Bool) :
    List.Forall (fun v : ℝ × ℝ × ℝ => v.1 ^ 2 + v.2.1 ^ 2 + v.2.2 ^ 2 = 1)
      ((pointStage R g s d hemisphere).1) :=
  starVerticesLoop_on_sphere R hemisphere _ _

/-- C3 (amended): the number of generated star positions equals
`round(1000 * star_density)` when hemisphere is false and
`round((1000 * star_density) / 2)` when hemisphere is true — the halving
happens before the rounding, not after it; in particular `star_density = 2`
with hemisphere false yields exactly 2000 points. -/
theorem pointStage_count {σ : Type} (R : PRNG σ) (g : σ) (s : ℤ) (d : ℚ) :
    ((pointStage R g s d false).1).length = (pyRound (1000 * d)).toNat
    ∧ ((pointStage R g s d true).1).length = (pyRound (1000 * d / 2)).toNat
    ∧ ((pointStage R g s 2 false).1).length = 2000 := by
  refine ⟨?_, ?_, ?_⟩
  · rw [pointStage_length]; rfl
  · rw [pointStage_length]; rfl
  · rw [pointStage_length]
    norm_num [numStars, pyRound, floorQ_eq]
    rfl

/-- C3 counterexample: at `star_density = 13/5000` with hemisphere mode the
code generates `round(1000 * d / 2) = round(1.3) = 1` point, while the
claim's count "`round(1000 * d)` halved (rounded)" is
`round(round(2.6) / 2) = round(1.5) = 2`. -/
theorem pointStage_count_cx :
    ((pointStage lcgRNG 0 42 (13/5000) true).1).length = 1
    ∧ (pyRound ((pyRound (1000 * (13/5000 : ℚ)) : ℚ) / 2)).toNat ≠ 1 := by
  constructor
  · rw [pointStage_length]
    norm_num [numStars, pyRound, floorQ_eq]
  · norm_num [pyRound, floorQ_eq]
    decide

/-! ## Claims about the shader node groups -/

/-- C5: the intensity-mapping composite function
`r ↦ 2.512 ^ (ln((r * 9100) / 3.56) / -1.21)` wired in the "Random
Intensity" group is strictly monotonically decreasing in its random input
over (0, 1). -/
theorem randomIntensityGroup_strictAnti (r1 r2 : ℝ) (h0 : 0 < r1) (h12 : r1 < r2)
    (h1 : r2 < 1) :
    randomIntensityGroup r2 < randomIntensityGroup r1 := by
  simp only [randomIntensityGroup, mathLogarithm, Real.log_exp, div_one]
  rw [Real.rpow_lt_rpow_left_iff (by norm_num : (1 : ℝ) < 2.512)]
  rw [div_lt_div_right_of_neg (by norm_num : (-1.21 : ℝ) < 0)]
  apply Real.log_lt_log
  · positivity
  · gcongr

/-- C5 witness: the inputs 1/4 < 1/2 in (0, 1) and the instantiated
monotonicity fact. -/
theorem randomIntensityGroup_strictAnti_w :
    ((0 : ℝ) < 1/4 ∧ (1/4 : ℝ) < 1/2 ∧ (1/2 : ℝ) < 1)
    ∧ randomIntensityGroup (1/2) < randomIntensityGroup (1/4) :=
  ⟨⟨by norm_num, by norm_num, by norm_num⟩,
    randomIntensityGroup_strictAnti (1/4) (1/2) (by norm_num) (by norm_num) (by norm_num)⟩

/-- C6: the "Random Splitter" group maps an input `r` of [0, 1) to
output `Random 1` equal to `r` (identity pass-through) and output
`Random 2` equal to the fractional part of `r * 1000`, which lies
in [0, 1). -/
theorem randomSplitterGroup_spec (r : ℚ) (h0 : 0 ≤ r) (h1 : r < 1) :
    (randomSplitterGroup r).1 = r
    ∧ (randomSplitterGroup r).2 = Int.fract (r * 1000)
    ∧ 0 ≤ (randomSplitterGroup r).2 ∧ (randomSplitterGroup r).2 < 1 := by
  have hfr : (randomSplitterGroup r).2 = Int.fract (r * 1000) := by
    show fmodQ (r * 1000) 1 = Int.fract (r * 1000)
    rw [fmodQ, div_one, truncQ, if_pos (by positivity : (0 : ℚ) ≤ r * 1000),
      floorQ_eq, Int.fract, one_mul]
  exact ⟨rfl, hfr, hfr ▸ Int.fract_nonneg _, hfr ▸ Int.fract_lt_one _⟩

/-- C6 witness: the splitter instantiated at r = 1/4. -/
theorem randomSplitterGroup_spec_w :
    ((0 : ℚ) ≤ 1/4 ∧ (1/4 : ℚ) < 1)
    ∧ ((randomSplitterGroup (1/4)).1 = 1/4
      ∧ (randomSplitterGroup (1/4)).2 = Int.fract ((1/4 : ℚ) * 1000)
      ∧ 0 ≤ (randomSplitterGroup (1/4)).2 ∧ (randomSplitterGroup (1/4)).2 < 1) :=
  ⟨⟨by norm_num, by norm_num⟩, randomSplitterGroup_spec (1/4) (by norm_num) (by norm_num)⟩

/-! ## Claims about `connect_nodes` -/

theorem chainLinks_length {α : Type} :
    ∀ (args : List α), 4 ≤ args.length → (args.length - 4) % 3 = 0 →
      (chainLinks args).length = (args.length - 1) / 3
  | [], h, _ => by simp at h
  | [_], h, _ => by simp at h
  | [_, _], h, _ => by simp at h
  | [_, _, _], h, _ => by simp at h
  | a :: o :: i :: b :: rest, _, hmod => by
    have hmod' : rest.length % 3 = 0 := by
      simpa using hmod
    rcases Nat.eq_zero_or_pos rest.length with hz | hpos
    · rw [List.length_eq_zero] at hz
      subst hz
      simp [chainLinks]
    · have h3 : 3 ≤ rest.length := by omega
      have ih := chainLinks_length (b :: rest) (by simp; omega) (by simp; omega)
      have hstep : chainLinks (a :: o :: i :: b :: rest)
          = (a, o, i, b) :: chainLinks (b :: rest) := by
        simp [chainLinks]
      rw [hstep]
      simp only [List.length_cons] at ih ⊢
      omega

/-- C7 counterexample: with a single argument the code raises
("Invalid number of arguments!", since `len(args) < 4`), although the
claim's condition `(argc - 4) mod 3 == 0` holds: `(1 - 4) mod 3 = 0`.  So
"raises iff `(argc - 4) mod 3 ≠ 0`" is false at `argc = 1`. -/
theorem connect_nodes_arity_cx :
    connect_nodes ([0] : List ℕ) = Except.error "Invalid number of arguments!"
    ∧ ((([0] : List ℕ).length : ℤ) - 4) % 3 = 0 := by
  constructor
  · rfl
  · decide

/-- C7 (amended): `connect_nodes` raises exactly when the argument count
fails `argc ≥ 4 ∧ (argc - 4) mod 3 == 0` (the claim's condition plus the
lower bound `argc ≥ 4` checked by the code); the check precedes the linking
loop, so on failure no link is made (the error carries no links), and when
the condition holds the chain of `(argc - 1) / 3` links is made without
raising. -/
theorem connect_nodes_arity {α : Type} (args : List α) :
    (connect_nodes args = Except.error "Invalid number of arguments!"
      ↔ (args.length < 4 ∨ (args.length - 4) % 3 ≠ 0))
    ∧ (4 ≤ args.length → (args.length - 4) % 3 = 0 →
        connect_nodes args = Except.ok (chainLinks args)
        ∧ (chainLinks args).length = (args.length - 1) / 3) := by
  constructor
  · unfold connect_nodes
    split
    · next h => exact iff_of_true rfl h
    · next h => exact iff_of_false (fun hx => Except.noConfusion hx) h
  · intro h4 hmod
    unfold connect_nodes
    rw [if_neg (by push_neg; omega)]
    exact ⟨rfl, chainLinks_length args h4 hmod⟩

/-- C7 witness: at four arguments the condition holds, the call returns the
single chain link without raising, and the link count is `(4 - 1) / 3 = 1`. -/
theorem connect_nodes_arity_w :
    (4 ≤ ([1, 2, 3, 4] : List ℕ).length ∧ (([1, 2, 3, 4] : List ℕ).length - 4) % 3 = 0)
    ∧ (connect_nodes ([1, 2, 3, 4] : List ℕ) = Except.ok (chainLinks [1, 2, 3, 4])
      ∧ (chainLinks ([1, 2, 3, 4] : List ℕ)).length = (([1, 2, 3, 4] : List ℕ).length - 1) / 3) :=
  ⟨⟨by decide, by decide⟩,
    (connect_nodes_arity ([1, 2, 3, 4] : List ℕ)).2 (by decide) (by decide)⟩

/-! ## Claims about the star template -/

/-- C8 counterexample: the template triangle's apex-to-base height is
`2s - (-s) = 3s`, not `4s` as claimed (`s = 0.0002`, so `3s = 0.0006` while
`4s = 0.0008`). -/
theorem template_height_cx :
    templateV0.2.2 - templateV1.2.2 = 3 * tmpl_s
    ∧ templateV0.2.2 - templateV1.2.2 ≠ 4 * tmpl_s := by
  constructor
  · show 2 * tmpl_s - -tmpl_s = 3 * tmpl_s
    ring
  · show 2 * tmpl_s - -tmpl_s ≠ 4 * tmpl_s
    rw [tmpl_s]
    norm_num

/-- C8 (amended): the star template mesh is on every generation the same
fixed triangle with exactly 3 vertices, 3 edges and 1 face, isoceles (the
two sides at the apex have equal length), with height `3s` (not `4s`) and
half-base `√3 * s` for `s = 0.0002`. -/
theorem template_triangle_spec :
    templateVertices = [templateV0, templateV1, templateV2]
    ∧ templateVertices.length = 3
    ∧ templateEdges.length = 3
    ∧ templateFaces.length = 1
    ∧ distSq templateV0 templateV1 = distSq templateV0 templateV2
    ∧ templateV0.2.2 - templateV1.2.2 = 3 * tmpl_s
    ∧ tmpl_q = Real.sqrt 3 * tmpl_s := by
  refine ⟨rfl, rfl, rfl, rfl, ?_, ?_, ?_⟩
  · show distSq (0, 0, 2 * tmpl_s) (-tmpl_q, 0, -tmpl_s)
        = distSq (0, 0, 2 * tmpl_s) (tmpl_q, 0, -tmpl_s)
    simp only [distSq]
    ring
  · show 2 * tmpl_s - -tmpl_s = 3 * tmpl_s
    ring
  · rw [tmpl_q, mul_comm]

/-! ## Registry lemmas: name lookup, first-named update, counting -/

theorem lookupObj_append_of_none {l : List Obj} {n : String} (a : Obj)
    (h : lookupObj l n = none) :
    lookupObj (l ++ [a]) n = if a.name = n then some a else none := by
  induction l with
  | nil => rfl
  | cons o os ih =>
    rw [List.cons_append]
    rw [lookupObj] at h ⊢
    by_cases ho : o.name = n
    · rw [if_pos ho] at h
      cases h
    · rw [if_neg ho] at h ⊢
      exact ih h

theorem lookupObj_append_of_some {l : List Obj} {n : String} {o : Obj} (a : Obj)
    (h : lookupObj l n = some o) :
    lookupObj (l ++ [a]) n = some o := by
  induction l with
  | nil => cases h
  | cons p ps ih =>
    rw [List.cons_append]
    rw [lookupObj] at h ⊢
    by_cases hp : p.name = n
    · rw [if_pos hp] at h ⊢
      exact h
    · rw [if_neg hp] at h ⊢
      exact ih h

theorem lookupObj_modifyFirstNamed_self (n : String) (f : Obj → Obj)
    (hf : ∀ o, (f o).name = o.name) :
    ∀ l : List Obj, lookupObj (modifyFirstNamed n f l) n = (lookupObj l n).map f := by
  intro l
  induction l with
  | nil => rfl
  | cons o os ih =>
    rw [modifyFirstNamed]
    by_cases h : o.name = n
    · have hfn : (f o).name = n := by rw [hf, h]
      rw [if_pos h, lookupObj, if_pos hfn, lookupObj, if_pos h]
      rfl
    · rw [if_neg h, lookupObj, if_neg h, lookupObj, if_neg h]
      exact ih

theorem lookupObj_modifyFirstNamed_other (m n : String) (hmn : m ≠ n) (f : Obj → Obj)
    (hf : ∀ o, (f o).name = o.name) :
    ∀ l : List Obj, lookupObj (modifyFirstNamed m f l) n = lookupObj l n := by
  intro l
  induction l with
  | nil => rfl
  | cons o os ih =>
    rw [modifyFirstNamed]
    by_cases h : o.name = m
    · have hfn : (f o).name ≠ n := by rw [hf, h]; exact hmn
      have hon : o.name ≠ n := by rw [h]; exact hmn
      rw [if_pos h, lookupObj, if_neg hfn, lookupObj, if_neg hon]
    · rw [if_neg h, lookupObj, lookupObj]
      by_cases hn : o.name = n
      · rw [if_pos hn, if_pos hn]
      · rw [if_neg hn, if_neg hn]
        exact ih

theorem countName_append (l : List Obj) (a : Obj) (n : String) :
    countName (l ++ [a]) n = countName l n + (if a.name = n then 1 else 0) := by
  by_cases h : a.name = n <;>
    simp [countName, List.countP_append, List.countP_cons, h]

theorem countName_modifyFirstNamed (m : String) (f : Obj → Obj)
    (hf : ∀ o, (f o).name = o.name) :
    ∀ (l : List Obj) (n : String), countName (modifyFirstNamed m f l) n = countName l n := by
  intro l n
  induction l with
  | nil => rfl
  | cons o os ih =>
    rw [modifyFirstNamed]
    by_cases h : o.name = m
    · rw [if_pos h]
      simp only [countName, List.countP_cons, hf o]
    · rw [if_neg h]
      simp only [countName, List.countP_cons] at ih ⊢
      rw [ih]

theorem lookupObj_eq_none_iff (l : List Obj) (n : String) :
    lookupObj l n = none ↔ countName l n = 0 := by
  induction l with
  | nil => simp [lookupObj, countName]
  | cons o os ih =>
    rw [lookupObj]
    by_cases h : o.name = n
    · rw [if_pos h]
      simp [countName, List.countP_cons, h]
    · rw [if_neg h]
      simp only [countName, List.countP_cons] at ih ⊢
      simp only [beq_iff_eq, h, if_false]
      rw [ih]
      omega

theorem one_le_countName_of_lookup {l : List Obj} {n : String} {o : Obj}
    (h : lookupObj l n = some o) : 1 ≤ countName l n := by
  rcases Nat.eq_zero_or_pos (countName l n) with hz | hpos
  · rw [← lookupObj_eq_none_iff] at hz
    rw [hz] at h
    cases h
  · exact hpos

theorem countStr_append (l : List String) (a n : String) :
    countStr (l ++ [a]) n = countStr l n + (if a = n then 1 else 0) := by
  by_cases h : a = n <;>
    simp [countStr, List.countP_append, List.countP_cons, h]

theorem countStr_eq_zero_of_not_contains {l : List String} {n : String}
    (h : l.contains n = false) : countStr l n = 0 := by
  simp only [List.contains_eq_any_beq, List.any_eq_false, beq_iff_eq] at h
  rw [countStr, List.countP_eq_zero]
  intro a ha
  simp only [beq_iff_eq]
  intro hab
  exact h a ha hab.symm

theorem one_le_countStr_of_contains {l : List String} {n : String}
    (h : l.contains n = true) : 1 ≤ countStr l n := by
  simp only [List.contains_eq_any_beq, List.any_eq_true, beq_iff_eq] at h
  obtain ⟨a, ha, rfl⟩ := h
  rw [countStr]
  exact List.countP_pos_iff.mpr ⟨_, ha, by simp⟩

theorem countStr_upsert (l : List String) (n : String) (h : countStr l n ≤ 1) :
    countStr (if l.contains n then l else l ++ [n]) n = 1 := by
  cases hc : l.contains n with
  | true =>
    rw [if_pos rfl]
    have := one_le_countStr_of_contains hc
    omega
  | false =>
    rw [if_neg (by simp)]
    rw [countStr_append, countStr_eq_zero_of_not_contains hc, if_pos rfl]

/-! ## Effect of each stage of the body on the scene fields -/

@[simp] theorem objMod_objects (st : SceneState) (n : String) (f : Obj → Obj) :
    (objMod st n f).objects = modifyFirstNamed n f st.objects := rfl

@[simp] theorem objMod_materials (st : SceneState) (n : String) (f : Obj → Obj) :
    (objMod st n f).materials = st.materials := rfl

@[simp] theorem objMod_node_groups (st : SceneState) (n : String) (f : Obj → Obj) :
    (objMod st n f).node_groups = st.node_groups := rfl

@[simp] theorem objMod_camera (st : SceneState) (n : String) (f : Obj → Obj) :
    (objMod st n f).camera = st.camera := rfl

@[simp] theorem from_pydata_objects (st : SceneState) (n : String) (d : MeshData) :
    (from_pydata st n d).objects = st.objects := by
  rw [from_pydata]
  cases lookupObj st.objects n <;> rfl

@[simp] theorem from_pydata_materials (st : SceneState) (n : String) (d : MeshData) :
    (from_pydata st n d).materials = st.materials := by
  rw [from_pydata]
  cases lookupObj st.objects n <;> rfl

@[simp] theorem from_pydata_node_groups (st : SceneState) (n : String) (d : MeshData) :
    (from_pydata st n d).node_groups = st.node_groups := by
  rw [from_pydata]
  cases lookupObj st.objects n <;> rfl

@[simp] theorem from_pydata_camera (st : SceneState) (n : String) (d : MeshData) :
    (from_pydata st n d).camera = st.camera := by
  rw [from_pydata]
  cases lookupObj st.objects n <;> rfl

@[simp] theorem ensureMaterial_objects (st : SceneState) (n : String) :
    (ensureMaterial st n).objects = st.objects := by
  rw [ensureMaterial]
  split <;> rfl

theorem ensureMaterial_materials (st : SceneState) (n : String) :
    (ensureMaterial st n).materials
      = if st.materials.contains n then st.materials else st.materials ++ [n] := by
  rw [ensureMaterial]
  split <;> simp_all

@[simp] theorem ensureMaterial_node_groups (st : SceneState) (n : String) :
    (ensureMaterial st n).node_groups = st.node_groups := by
  rw [ensureMaterial]
  split <;> rfl

@[simp] theorem ensureMaterial_camera (st : SceneState) (n : String) :
    (ensureMaterial st n).camera = st.camera := by
  rw [ensureMaterial]
  split <;> rfl

@[simp] theorem newNodeGroup_objects (st : SceneState) (b : String) :
    (newNodeGroup st b).objects = st.objects := rfl

@[simp] theorem newNodeGroup_materials (st : SceneState) (b : String) :
    (newNodeGroup st b).materials = st.materials := rfl

@[simp] theorem newNodeGroup_node_groups (st : SceneState) (b : String) :
    (newNodeGroup st b).node_groups
      = st.node_groups ++ [uniquify st.node_groups b] := rfl

@[simp] theorem newNodeGroup_camera (st : SceneState) (b : String) :
    (newNodeGroup st b).camera = st.camera := rfl

@[simp] theorem clearWorldBackground_objects (props : Props) (st : SceneState) :
    (clearWorldBackground props st).objects = st.objects := by
  rw [clearWorldBackground]
  split <;> rfl

@[simp] theorem clearWorldBackground_materials (props : Props) (st : SceneState) :
    (clearWorldBackground props st).materials = st.materials := by
  rw [clearWorldBackground]
  split <;> rfl

@[simp] theorem clearWorldBackground_node_groups (props : Props) (st : SceneState) :
    (clearWorldBackground props st).node_groups = st.node_groups := by
  rw [clearWorldBackground]
  split <;> rfl

@[simp] theorem clearWorldBackground_camera (props : Props) (st : SceneState) :
    (clearWorldBackground props st).camera = st.camera := by
  rw [clearWorldBackground]
  split <;> rfl

@[simp] theorem newObj_name (name data_ : String) : (newObj name data_).name = name := rfl

theorem create_or_reuse_objects (st : SceneState) (name : String) :
    (create_or_reuse_mesh_object st name).objects
      = if (lookupObj st.objects name).isSome then st.objects
        else st.objects ++ [newObj name (name ++ "_mesh")] := by
  rw [create_or_reuse_mesh_object]
  split <;> split <;> rfl

@[simp] theorem create_or_reuse_materials (st : SceneState) (name : String) :
    (create_or_reuse_mesh_object st name).materials = st.materials := by
  rw [create_or_reuse_mesh_object]
  split <;> split <;> rfl

@[simp] theorem create_or_reuse_node_groups (st : SceneState) (name : String) :
    (create_or_reuse_mesh_object st name).node_groups = st.node_groups := by
  rw [create_or_reuse_mesh_object]
  split <;> split <;> rfl

@[simp] theorem create_or_reuse_camera (st : SceneState) (name : String) :
    (create_or_reuse_mesh_object st name).camera = st.camera := by
  rw [create_or_reuse_mesh_object]
  split <;> split <;> rfl

theorem lookupObj_create_or_reuse_self (st : SceneState) (name : String) :
    lookupObj (create_or_reuse_mesh_object st name).objects name
      = some ((lookupObj st.objects name).getD (newObj name (name ++ "_mesh"))) := by
  rw [create_or_reuse_objects]
  cases h : lookupObj st.objects name with
  | some o => simp [h]
  | none =>
    simp only [h, Option.isSome_none, Bool.false_eq_true, if_false, Option.getD_none]
    rw [lookupObj_append_of_none _ h]
    simp

theorem lookupObj_create_or_reuse_other (st : SceneState) (m n : String) (hnm : n ≠ m) :
    lookupObj (create_or_reuse_mesh_object st m).objects n = lookupObj st.objects n := by
  rw [create_or_reuse_objects]
  cases h : lookupObj st.objects m with
  | some o => simp [h]
  | none =>
    simp only [h, Option.isSome_none, Bool.false_eq_true, if_false]
    cases h2 : lookupObj st.objects n with
    | some o2 => exact lookupObj_append_of_some _ h2
    | none =>
      rw [lookupObj_append_of_none _ h2]
      simp [Ne.symm hnm]

theorem countName_create_or_reuse_self (st : SceneState) (name : String)
    (h : countName st.objects name ≤ 1) :
    countName (create_or_reuse_mesh_object st name).objects name = 1 := by
  rw [create_or_reuse_objects]
  cases hl : lookupObj st.objects name with
  | some o =>
    simp only [hl, Option.isSome_some, if_true]
    have := one_le_countName_of_lookup hl
    omega
  | none =>
    simp only [hl, Option.isSome_none, Bool.false_eq_true, if_false]
    rw [countName_append]
    rw [(lookupObj_eq_none_iff _ _).mp hl]
    simp

theorem countName_create_or_reuse_other (st : SceneState) (m n : String) (hmn : m ≠ n) :
    countName (create_or_reuse_mesh_object st m).objects n = countName st.objects n := by
  rw [create_or_reuse_objects]
  split
  · rfl
  · rw [countName_append]
    simp [hmn]

/-! ## Simp-oriented restatements for rewriting under the body -/

theorem countName_modifyFirstNamed_simp (m : String) (f : Obj → Obj) (l : List Obj)
    (n : String) (hf : ∀ o, (f o).name = o.name) :
    countName (modifyFirstNamed m f l) n = countName l n :=
  countName_modifyFirstNamed m f hf l n

theorem lookupObj_modifyFirstNamed_self_simp (n : String) (f : Obj → Obj) (l : List Obj)
    (hf : ∀ o, (f o).name = o.name) :
    lookupObj (modifyFirstNamed n f l) n = (lookupObj l n).map f :=
  lookupObj_modifyFirstNamed_self n f hf l

theorem lookupObj_modifyFirstNamed_other_simp (m n : String) (f : Obj → Obj) (l : List Obj)
    (hmn : m ≠ n) (hf : ∀ o, (f o).name = o.name) :
    lookupObj (modifyFirstNamed m f l) n = lookupObj l n :=
  lookupObj_modifyFirstNamed_other m n hmn f hf l

/-! ## Aggregate effect of the body of a successful generation -/

theorem generateBody_camera (p : Props) (cam : Camera) (st : SceneState) :
    (generateBody p cam st).camera = st.camera := by
  simp only [generateBody, clearWorldBackground_camera, objMod_camera, newNodeGroup_camera,
    ensureMaterial_camera, from_pydata_camera, create_or_reuse_camera]

theorem generateBody_node_groups_length (p : Props) (cam : Camera) (st : SceneState) :
    (generateBody p cam st).node_groups.length = st.node_groups.length + 3 := by
  simp only [generateBody, clearWorldBackground_node_groups, objMod_node_groups,
    newNodeGroup_node_groups, ensureMaterial_node_groups, from_pydata_node_groups,
    create_or_reuse_node_groups, List.length_append, List.length_cons, List.length_nil]

theorem countStr_generateBody (p : Props) (cam : Camera) (st : SceneState)
    (h : countStr st.materials "Star Shader" ≤ 1) :
    countStr (generateBody p cam st).materials "Star Shader" = 1 := by
  have hm : (generateBody p cam st).materials
      = if st.materials.contains "Star Shader" then st.materials
        else st.materials ++ ["Star Shader"] := by
    simp only [generateBody, clearWorldBackground_materials, objMod_materials,
      newNodeGroup_materials, ensureMaterial_materials, from_pydata_materials,
      create_or_reuse_materials]
  rw [hm]
  exact countStr_upsert _ _ h

theorem countName_generateBody_starscape (p : Props) (cam : Camera) (st : SceneState)
    (h : countName st.objects "Starscape" ≤ 1) :
    countName (generateBody p cam st).objects "Starscape" = 1 := by
  simp [generateBody, countName_modifyFirstNamed_simp]
  rw [countName_create_or_reuse_other _ "Star_Template" "Starscape" (by decide)]
  rw [from_pydata_objects]
  rw [countName_create_or_reuse_self _ _ h]

theorem countName_generateBody_template (p : Props) (cam : Camera) (st : SceneState)
    (h : countName st.objects "Star_Template" ≤ 1) :
    countName (generateBody p cam st).objects "Star_Template" = 1 := by
  simp [generateBody, countName_modifyFirstNamed_simp]
  rw [countName_create_or_reuse_self]
  rw [from_pydata_objects]
  rw [countName_create_or_reuse_other _ "Starscape" "Star_Template" (by decide)]
  exact h

theorem generate_starscape_valid (p : Props) (st : SceneState) (cam : Camera)
    (hc : st.camera = some cam) (hp : cam.cam_type = "PERSP") :
    generate_starscape p st = (true, generateBody p cam st) := by
  simp [generate_starscape, hc, hp]

/-! ## Claims about the scene-level behaviour -/

/-- C2: if the scene has no active camera, or the active camera is not
perspective, `generate_starscape` returns `False` (not an exception) and
performs no mutation of the scene: the camera guard precedes every mutating
statement, so the state is returned unchanged. -/
theorem generate_starscape_invalid_camera (props : Props) (st : SceneState)
    (h : ∀ cam, st.camera = some cam → cam.cam_type ≠ "PERSP") :
    generate_starscape props st = (false, st) := by
  cases hcam : st.camera with
  | none => simp [generate_starscape, hcam]
  | some cam => simp [generate_starscape, hcam, h cam hcam]

/-- C2 witness: on a scene whose camera is orthographic the call returns
`False` and the whole scene state unchanged. -/
theorem generate_starscape_invalid_camera_w :
    (∀ cam, orthoScene.camera = some cam → cam.cam_type ≠ "PERSP")
    ∧ generate_starscape demoProps orthoScene = (false, orthoScene) := by
  have hcams : ∀ cam, orthoScene.camera = some cam → cam.cam_type ≠ "PERSP" := by
    intro cam hsome
    have he : (⟨"Camera", "ORTHO"⟩ : Camera) = cam := by
      simpa [orthoScene, demoScene] using hsome
    rw [← he]
    decide
  exact ⟨hcams, generate_starscape_invalid_camera demoProps orthoScene hcams⟩

/-- C10: after every successful call, the star-field object's constraint
list is exactly one COPY_LOCATION constraint targeting the active camera
when `camera_lock` is true, and empty when it is false: the code always
clears the constraints and then conditionally installs the single
constraint, so a constraint installed by a previous call is removed when
`camera_lock` is disabled. -/
theorem generate_starscape_constraints (props : Props) (st : SceneState) (cam : Camera)
    (hc : st.camera = some cam) (hp : cam.cam_type = "PERSP") :
    (lookupObj (generate_starscape props st).2.objects "Starscape").map Obj.constraints
      = some (if props.camera_lock then [⟨"COPY_LOCATION", some cam.name⟩] else []) := by
  rw [generate_starscape_valid props st cam hc hp]
  simp [generateBody, lookupObj_modifyFirstNamed_self_simp, lookupObj_modifyFirstNamed_other_simp]
  rw [lookupObj_create_or_reuse_other _ "Star_Template" "Starscape" (by decide)]
  rw [from_pydata_objects]
  rw [lookupObj_create_or_reuse_self]
  simp

/-- C10 witness: on the demo scene (perspective camera, `camera_lock` true)
the star-field object carries exactly the camera-follow constraint. -/
theorem generate_starscape_constraints_w :
    (demoScene.camera = some demoCamera ∧ demoCamera.cam_type = "PERSP")
    ∧ (lookupObj (generate_starscape demoProps demoScene).2.objects "Starscape").map Obj.constraints
        = some (if demoProps.camera_lock then [⟨"COPY_LOCATION", some demoCamera.name⟩] else []) :=
  ⟨⟨rfl, rfl⟩, generate_starscape_constraints demoProps demoScene demoCamera rfl rfl⟩

/-- C1 counterexample: re-invoking `generate_starscape` does duplicate the
node-group datablocks: `bpy.data.node_groups.new` is called unconditionally,
so a second run on the demo scene leaves six node groups (the second run's
three under ".001"-suffixed names), not three as reuse-by-name would. -/
theorem generate_starscape_twice_node_groups_cx :
    (generate_starscape demoProps (generate_starscape demoProps demoScene).2).2.node_groups
      = ["Random Intensity", "Random Splitter", "Random Star Color",
         "Random Intensity.001", "Random Splitter.001", "Random Star Color.001"]
    ∧ (generate_starscape demoProps (generate_starscape demoProps demoScene).2).2.node_groups.length
        ≠ 3 := by
  constructor
  · decide
  · decide

/-- C1 (amended): re-invoking `generate_starscape` with the same logical
names does not duplicate the objects and the material — for every scene
state with uniquely-named registries and a perspective camera, two runs
leave exactly one object named "Starscape", one named "Star_Template" and
one material "Star Shader", reused in place — but the three node groups are
NOT reused: each invocation creates three fresh node-group datablocks
(under suffixed names), so after two runs six node groups exist. -/
theorem generate_starscape_twice_reuse (p1 p2 : Props) (st : SceneState) (cam : Camera)
    (hc : st.camera = some cam) (hp : cam.cam_type = "PERSP")
    (h1 : countName st.objects "Starscape" ≤ 1)
    (h2 : countName st.objects "Star_Template" ≤ 1)
    (h3 : countStr st.materials "Star Shader" ≤ 1) :
    countName (generate_starscape p2 (generate_starscape p1 st).2).2.objects "Starscape" = 1
    ∧ countName (generate_starscape p2 (generate_starscape p1 st).2).2.objects "Star_Template" = 1
    ∧ countStr (generate_starscape p2 (generate_starscape p1 st).2).2.materials "Star Shader" = 1
    ∧ (generate_starscape p2 (generate_starscape p1 st).2).2.node_groups.length
        = st.node_groups.length + 6 := by
  have e1 : generate_starscape p1 st = (true, generateBody p1 cam st) :=
    generate_starscape_valid p1 st cam hc hp
  have hc1 : (generateBody p1 cam st).camera = some cam :=
    (generateBody_camera p1 cam st).trans hc
  have e2 : generate_starscape p2 (generateBody p1 cam st)
      = (true, generateBody p2 cam (generateBody p1 cam st)) :=
    generate_starscape_valid p2 _ cam hc1 hp
  simp only [e1, e2]
  refine ⟨?_, ?_, ?_, ?_⟩
  · exact countName_generateBody_starscape _ _ _
      (le_of_eq (countName_generateBody_starscape _ _ _ h1))
  · exact countName_generateBody_template _ _ _
      (le_of_eq (countName_generateBody_template _ _ _ h2))
  · exact countStr_generateBody _ _ _
      (le_of_eq (countStr_generateBody _ _ _ h3))
  · rw [generateBody_node_groups_length, generateBody_node_groups_length]

/-- C1 witness: the double run instantiated on the demo scene. -/
theorem generate_starscape_twice_reuse_w :
    (countName demoScene.objects "Starscape" ≤ 1
      ∧ countName demoScene.objects "Star_Template" ≤ 1
      ∧ countStr demoScene.materials "Star Shader" ≤ 1)
    ∧ (countName (generate_starscape demoProps (generate_starscape demoProps demoScene).2).2.objects
          "Starscape" = 1
      ∧ countName (generate_starscape demoProps (generate_starscape demoProps demoScene).2).2.objects
          "Star_Template" = 1
      ∧ countStr (generate_starscape demoProps (generate_starscape demoProps demoScene).2).2.materials
          "Star Shader" = 1
      ∧ (generate_starscape demoProps (generate_starscape demoProps demoScene).2).2.node_groups.length
          = demoScene.node_groups.length + 6) :=
  ⟨⟨by decide, by decide, by decide⟩,
    generate_starscape_twice_reuse demoProps demoProps demoScene demoCamera rfl rfl
      (by decide) (by decide) (by decide)⟩

end Starscape
